import Mathlib

/-!
# Verification of the library-catalog database client (`src/main.cpp`)

A shallow embedding of the single-file libpq client. The client reads a
database name, username, password and table name, classifies the session as
privileged (`username == "admin"`) or restricted, and runs a numeric menu
loop. Every menu action is a single parameterized remote call
(`PQexecParams` with a fixed SQL literal and positional text parameters);
errors are thrown as exceptions carrying a description plus the server
message and caught per-iteration.

The embedding is an event-trace semantics: external effects (stdout lines,
stderr diagnostics, remote calls, opening/closing the short-lived
administrative connection) become `Event`s, and the outcome of each remote
call is an environment parameter, since the server is outside the program.
The global `g_printNotices` flag is tracked explicitly: `promptMenu` and
`remote` events record its value at the moment they occur, and each loop
iteration reports the flag value it leaves behind.
-/

/-- Which connection a remote call is issued on: the persistent connection to
the target database (`conn_`) or the short-lived administrative connection to
the fixed database `"postgres"` (`connTemp` in `createDatabase`/`dropDatabase`). -/
inductive Conn where
  | primary
  | adminTemp
deriving DecidableEq, Repr

/-- One parameterized remote call: `PQexecParams(conn, sql, n, NULL, params,
NULL, NULL, 0)` — all parameters are marshaled as text. -/
structure RemoteCall where
  conn : Conn
  sql : String
  params : List String
deriving DecidableEq, Repr

/-- The `Book` struct (`src/main.cpp` lines 18–24). -/
structure Book where
  id : Int
  title : String
  author : String
  publisher : String
  year : Int
deriving DecidableEq, Repr

/-- One result row of `sp_search_book_by_title` as delivered by libpq:
`PQgetvalue(res, i, k)` for columns `k = 0..4`, each a text string. -/
structure Row where
  c0 : String
  c1 : String
  c2 : String
  c3 : String
  c4 : String
deriving DecidableEq, Repr

/-- Observable effects of the client. `promptMenu` and `remote` record the
value of the notice flag `g_printNotices` at the moment they happen;
`connOpen`/`connClose` are `PQsetdbLogin`/`PQfinish` on the short-lived
administrative connection. `out` is a stdout line, `diag` a stderr line,
`promptLine` a stdout prompt for one line/number of input. -/
inductive Event where
  | out (s : String)
  | diag (s : String)
  | promptLine (s : String)
  | promptMenu (flag : Bool)
  | connOpen (db : String)
  | connClose (db : String)
  | remote (call : RemoteCall) (flag : Bool)
deriving DecidableEq, Repr

/-- Outcome of a remote call on the primary connection, supplied by the
environment: either a result whose status check passes (carrying the rows,
meaningful only for the search function) or a failed status together with
`PQerrorMessage(conn)`. -/
inductive RemoteOutcome where
  | ok (rows : List Row)
  | fail (serverMsg : String)
deriving DecidableEq, Repr

/-- Outcome of a create/drop-database action on the short-lived
administrative connection: the `PQsetdbLogin` connection attempt itself can
fail, or the `CALL` on it can fail, or everything succeeds. -/
inductive AdminOutcome where
  | connFail (serverMsg : String)
  | execFail (serverMsg : String)
  | execOk
deriving DecidableEq, Repr

/-- Environment for one menu iteration: the outcome the server gives to the
administrative-connection action (choices 1–2) and to the primary-connection
action (choices 3–10), whichever is dispatched. -/
structure Env where
  admin : AdminOutcome
  primary : RemoteOutcome
deriving DecidableEq, Repr

/-- `checkResult` (lines 26–32): a non-success status becomes a thrown
`runtime_error` whose text is the caller's static description, `": "`, and
the server's error message; success passes through. `none` = no exception. -/
def checkResult (errMsg : String) (outcome : RemoteOutcome) : Option String :=
  match outcome with
  | .ok _ => none
  | .fail serverMsg => some (errMsg ++ ": " ++ serverMsg)

/-- `DBManager::createDatabase` call (line 211–213): fixed SQL literal, the
new database name as the single positional parameter, on the temp connection. -/
def createDatabaseCall (newDbName : String) : RemoteCall :=
  ⟨.adminTemp, "CALL sp_create_database($1)", [newDbName]⟩

/-- `DBManager::dropDatabase` call (line 226–228). -/
def dropDatabaseCall (dbNameToDrop : String) : RemoteCall :=
  ⟨.adminTemp, "CALL sp_drop_database($1)", [dbNameToDrop]⟩

/-- `DBManager::createTable` call (lines 234–240). -/
def createTableCall (tableName : String) : RemoteCall :=
  ⟨.primary, "CALL sp_create_table($1)", [tableName]⟩

/-- `DBManager::clearTable` call (lines 242–248). -/
def clearTableCall (tableName : String) : RemoteCall :=
  ⟨.primary, "CALL sp_clear_table($1)", [tableName]⟩

/-- `DBManager::addBook` call (lines 250–258): the year is marshaled as text
via `to_string`. -/
def addBookCall (tableName title author publisher : String) (year : Int) : RemoteCall :=
  ⟨.primary, "CALL sp_add_book($1, $2, $3, $4, $5)",
    [tableName, title, author, publisher, toString year]⟩

/-- `DBManager::searchBookByTitle` call (lines 260–264). -/
def searchBookByTitleCall (tableName titleFilter : String) : RemoteCall :=
  ⟨.primary, "SELECT * FROM sp_search_book_by_title($1, $2)", [tableName, titleFilter]⟩

/-- `DBManager::updateBook` call (lines 283–289): id and year marshaled as
text via `to_string`. -/
def updateBookCall (tableName : String) (id : Int) (title author publisher : String)
    (year : Int) : RemoteCall :=
  ⟨.primary, "CALL sp_update_book($1, $2, $3, $4, $5, $6)",
    [tableName, toString id, title, author, publisher, toString year]⟩

/-- `DBManager::deleteBookByTitle` call (lines 294–300). -/
def deleteBookByTitleCall (tableName title : String) : RemoteCall :=
  ⟨.primary, "CALL sp_delete_book_by_title($1, $2)", [tableName, title]⟩

/-- `DBManager::createDBUser` call (lines 302–308). -/
def createDBUserCall (newUsername newPassword mode : String) : RemoteCall :=
  ⟨.primary, "CALL sp_create_db_user($1, $2, $3)", [newUsername, newPassword, mode]⟩

/-- `std::stoi` as used on the two integer columns of a search result row.
(On the rows the server returns these columns are decimal integers; the
C++ `stoi` would throw on malformed text, a case no claim touches, modeled
here as the default `0`.) -/
def stoi (s : String) : Int := (s.toInt?).getD 0

/-- The row-decoding body of the loop in `searchBookByTitle` (lines 271–277):
one `Book` from the five text columns of one row. -/
def decodeRow (r : Row) : Book :=
  ⟨stoi r.c0, r.c1, r.c2, r.c3, stoi r.c4⟩

/-- The decoding loop of `searchBookByTitle` (lines 269–278): `for i in
0..nRows-1` push back the decoded row `i`, preserving row order. -/
def decodeRows : List Row → List Book
  | [] => []
  | r :: rs => decodeRow r :: decodeRows rs

/-- `DBManager::createDatabase` (lines 204–217), run against an environment:
open a temp connection to the fixed database `"postgres"`; on connection
failure, `PQfinish` it and throw; otherwise issue the call; `checkResult`
throws on a failed status — in that case the source never reaches the final
`PQfinish(connTemp)` (line 216), so no `connClose` event is emitted; on
success, close the temp connection. Returns the events and the thrown
message, if any. -/
def createDatabaseRun (newDbName : String) (env : AdminOutcome) :
    List Event × Option String :=
  match env with
  | .connFail serverMsg =>
      ([.connOpen "postgres", .connClose "postgres"],
        some ("Error connecting to postgres: " ++ serverMsg))
  | .execFail serverMsg =>
      ([.connOpen "postgres", .remote (createDatabaseCall newDbName) true],
        checkResult "Error creating database" (.fail serverMsg))
  | .execOk =>
      ([.connOpen "postgres", .remote (createDatabaseCall newDbName) true,
        .connClose "postgres"], none)

/-- `DBManager::dropDatabase` (lines 219–232), run against an environment;
same shape as `createDatabaseRun`, including the skipped `PQfinish` when
`checkResult` throws (line 231 unreached). -/
def dropDatabaseRun (dbNameToDrop : String) (env : AdminOutcome) :
    List Event × Option String :=
  match env with
  | .connFail serverMsg =>
      ([.connOpen "postgres", .connClose "postgres"],
        some ("Error connecting to postgres: " ++ serverMsg))
  | .execFail serverMsg =>
      ([.connOpen "postgres", .remote (dropDatabaseCall dbNameToDrop) true],
        checkResult "Error dropping database" (.fail serverMsg))
  | .execOk =>
      ([.connOpen "postgres", .remote (dropDatabaseCall dbNameToDrop) true,
        .connClose "postgres"], none)

/-- A primary-connection command action (`createTable`, `clearTable`,
`addBook`, `updateBook`, `deleteBookByTitle`, `createDBUser`): one remote
call, then `checkResult` with the action's static description. -/
def primaryRun (call : RemoteCall) (errMsg : String) (env : RemoteOutcome) :
    List Event × Option String :=
  ([.remote call true], checkResult errMsg env)

/-- `DBManager::searchBookByTitle` (lines 260–281), run against an
environment: one remote call; a non-`PGRES_TUPLES_OK` status throws the
fixed text `"Error searching for book"` with no server message (lines
265–268 do not call `checkResult` and do not read `PQerrorMessage`);
otherwise the rows are decoded in order. -/
def searchBookByTitleRun (tableName titleFilter : String) (env : RemoteOutcome) :
    List Event × Except String (List Book) :=
  match env with
  | .fail _ =>
      ([.remote (searchBookByTitleCall tableName titleFilter) true],
        .error "Error searching for book")
  | .ok rows =>
      ([.remote (searchBookByTitleCall tableName titleFilter) true],
        .ok (decodeRows rows))

/-- `printBooks` (lines 332–341). -/
def printBooks (books : List Book) : List Event :=
  if books.isEmpty then [.out "No books found."]
  else books.map (fun b =>
    .out (toString b.id ++ ": " ++ b.title ++ " by " ++ b.author ++
      " (" ++ b.publisher ++ ", " ++ toString b.year ++ ")"))

/-- The per-field operator inputs a menu iteration may read (lines 392–462);
each dispatch branch reads only the fields it prompts for. -/
structure FieldInputs where
  newDb : String
  dropDb : String
  title : String
  author : String
  publisher : String
  year : Int
  id : Int
  newUsername : String
  newUserPassword : String
  newUserMode : String
deriving DecidableEq, Repr

/-- The menu text printed each iteration (lines 365–384), filtered by role. -/
def menuHeader (isAdmin : Bool) : List Event :=
  [.out "", .out "Available operations:"] ++
  (if isAdmin then
    [.out "1. Create database", .out "2. Drop database", .out "3. Create table",
     .out "4. Clear table", .out "5. Add book", .out "6. Update book",
     .out "7. Delete book by Title"]
   else []) ++
  [.out "8. Search book by Title", .out "9. View all records"] ++
  (if isAdmin then [.out "10. Create new DB user", .out "11. Exit"]
   else [.out "10. Exit"])

/-- The diagnostic printed by the final `else` branch (line 468). -/
def invalidChoiceMsg : String :=
  "Invalid choice or operation not available for the current role."

/-- The menu action a branch of the if/else chain (lines 391–469) performs:
one constructor per branch, in source order. -/
inductive MenuAction where
  | createDb
  | dropDb
  | createTbl
  | clearTbl
  | addBk
  | updateBk
  | deleteBk
  | search
  | viewAll
  | createUser
  | exitLoop
  | invalid
deriving DecidableEq, Repr

/-- The branch conditions of the if/else chain (lines 391–469), in source
order: which action a (choice, role) pair selects. Choices 1–7 and 10
(create user) are guarded by `isAdmin`; 8–9 are unguarded; exit is
`choice == 10 && !isAdmin || choice == 11 && isAdmin` (line 465); everything
else falls to the final `else` (line 467). -/
def chooseAction (isAdmin : Bool) (choice : Int) : MenuAction :=
  if choice = 1 ∧ isAdmin then .createDb
  else if choice = 2 ∧ isAdmin then .dropDb
  else if choice = 3 ∧ isAdmin then .createTbl
  else if choice = 4 ∧ isAdmin then .clearTbl
  else if choice = 5 ∧ isAdmin then .addBk
  else if choice = 6 ∧ isAdmin then .updateBk
  else if choice = 7 ∧ isAdmin then .deleteBk
  else if choice = 8 then .search
  else if choice = 9 then .viewAll
  else if choice = 10 ∧ isAdmin then .createUser
  else if (choice = 10 ∧ ¬isAdmin) ∨ (choice = 11 ∧ isAdmin) then .exitLoop
  else .invalid

/-- The body of each branch of the if/else chain (lines 391–469), with
`g_printNotices` already set to `true` (line 390): the field prompts the
branch issues, the manager call it makes against the environment, and the
success line it prints when no exception is thrown. Returns the events of
the branch, the exception text if one was thrown, and the new `exitFlag`. -/
def runAction (tableName : String) (f : FieldInputs) (env : Env) :
    MenuAction → List Event × Option String × Bool
  | .createDb =>
    let r := createDatabaseRun f.newDb env.admin
    match r.2 with
    | none => (.promptLine "Enter the name of the database to create: " ::
        r.1 ++ [.out "Database created."], none, false)
    | some e => (.promptLine "Enter the name of the database to create: " :: r.1, some e, false)
  | .dropDb =>
    let r := dropDatabaseRun f.dropDb env.admin
    match r.2 with
    | none => (.promptLine "Enter the name of the database to drop: " ::
        r.1 ++ [.out "Database dropped."], none, false)
    | some e => (.promptLine "Enter the name of the database to drop: " :: r.1, some e, false)
  | .createTbl =>
    let r := primaryRun (createTableCall tableName) "Error creating table" env.primary
    match r.2 with
    | none => (r.1 ++ [.out "Table created."], none, false)
    | some e => (r.1, some e, false)
  | .clearTbl =>
    let r := primaryRun (clearTableCall tableName) "Error clearing table" env.primary
    match r.2 with
    | none => (r.1 ++ [.out "Table cleared."], none, false)
    | some e => (r.1, some e, false)
  | .addBk =>
    let prompts : List Event := [.promptLine "Enter Title: ", .promptLine "Enter Author: ",
      .promptLine "Enter Publisher: ", .promptLine "Enter Year: "]
    let r := primaryRun (addBookCall tableName f.title f.author f.publisher f.year)
      "Error adding book" env.primary
    match r.2 with
    | none => (prompts ++ r.1 ++ [.out "Book added."], none, false)
    | some e => (prompts ++ r.1, some e, false)
  | .updateBk =>
    let prompts : List Event := [.promptLine "Enter the ID of the book to update: ",
      .promptLine "Enter new Title: ", .promptLine "Enter new Author: ",
      .promptLine "Enter new Publisher: ", .promptLine "Enter new Year: "]
    let r := primaryRun (updateBookCall tableName f.id f.title f.author f.publisher f.year)
      "Error updating book" env.primary
    match r.2 with
    | none => (prompts ++ r.1 ++ [.out "Book updated."], none, false)
    | some e => (prompts ++ r.1, some e, false)
  | .deleteBk =>
    let r := primaryRun (deleteBookByTitleCall tableName f.title)
      "Error deleting book" env.primary
    match r.2 with
    | none => (.promptLine "Enter the Title of the book to delete: " ::
        r.1 ++ [.out "Book deleted."], none, false)
    | some e => (.promptLine "Enter the Title of the book to delete: " :: r.1, some e, false)
  | .search =>
    let r := searchBookByTitleRun tableName f.title env.primary
    match r.2 with
    | .ok books => (.promptLine "Enter part of the Title to search: " ::
        r.1 ++ printBooks books, none, false)
    | .error e => (.promptLine "Enter part of the Title to search: " :: r.1, some e, false)
  | .viewAll =>
    let r := searchBookByTitleRun tableName "" env.primary
    match r.2 with
    | .ok books => (r.1 ++ printBooks books, none, false)
    | .error e => (r.1, some e, false)
  | .createUser =>
    let prompts : List Event := [.promptLine "Enter new DB username: ",
      .promptLine "Enter new DB user password: ",
      .promptLine "Enter access mode for new user (admin/guest): "]
    let r := primaryRun (createDBUserCall f.newUsername f.newUserPassword f.newUserMode)
      "Error creating DB user" env.primary
    match r.2 with
    | none => (prompts ++ r.1 ++ [.out "New DB user created."], none, false)
    | some e => (prompts ++ r.1, some e, false)
  | .exitLoop => ([], none, true)
  | .invalid => ([.out invalidChoiceMsg], none, false)

/-- The if/else dispatch chain inside the `try` block (lines 391–469):
select the branch by (choice, role), then run its body. -/
def dispatch (isAdmin : Bool) (tableName : String) (choice : Int)
    (f : FieldInputs) (env : Env) : List Event × Option String × Bool :=
  runAction tableName f env (chooseAction isAdmin choice)

/-- Result of one iteration of the menu loop: its events, the `exitFlag`
after the iteration, and the value of `g_printNotices` it leaves behind. -/
structure StepResult where
  events : List Event
  exitFlag : Bool
  flagAfter : Bool
deriving DecidableEq, Repr

/-- One iteration of the `while (!exitFlag)` loop (lines 363–475):
`g_printNotices := false` (line 364), print the menu and read the choice
(the flag is `false` at the menu prompt), `g_printNotices := true`
(line 390), dispatch; a thrown exception is caught and printed once to
stderr as `"Error: "` plus its text (line 472); on both the success path
(line 470) and the catch path (line 473) the flag is reset to `false`. -/
def menuStep (isAdmin : Bool) (tableName : String) (choice : Int)
    (f : FieldInputs) (env : Env) : StepResult :=
  let pre := menuHeader isAdmin ++ [.promptMenu false]
  let d := dispatch isAdmin tableName choice f env
  match d.2.1 with
  | none => ⟨pre ++ d.1, d.2.2, false⟩
  | some e => ⟨pre ++ d.1 ++ [.diag ("Error: " ++ e)], d.2.2, false⟩

/-- The menu loop over a stream of per-iteration inputs: run iterations
until one sets `exitFlag` (or the operator input stream is exhausted),
concatenating their events. -/
def loopRun (isAdmin : Bool) (tableName : String) :
    List (Int × FieldInputs × Env) → List Event
  | [] => []
  | (choice, f, env) :: rest =>
      if (menuStep isAdmin tableName choice f env).exitFlag then
        (menuStep isAdmin tableName choice f env).events
      else (menuStep isAdmin tableName choice f env).events ++ loopRun isAdmin tableName rest

/-- Environment for the setup phase of `main`: whether `PQconnectdb` to the
target database succeeds (with `PQerrorMessage` text if not), and the
outcome of the `initProcedures` batch on the primary connection. -/
structure SetupEnv where
  connectOk : Bool
  connectErr : String
  initOutcome : RemoteOutcome
deriving DecidableEq, Repr

/-- The role classification (line 353): `bool isAdmin = (username == "admin")`,
computed once per run, before the menu loop. -/
def isAdminOf (username : String) : Bool := username == "admin"

/-- `main` (lines 343–481): read database name, username and password;
classify the role once; connect (failure throws out of the `try` and is
caught at the top level, printed as `"Critical error: ..."` to stderr);
provision the stored procedures (same fatal path on failure); read the
table name once; run the menu loop. Every path returns exit code 0
(line 480 is outside the try/catch). -/
def mainRun (dbName username password tableName : String) (senv : SetupEnv)
    (steps : List (Int × FieldInputs × Env)) : List Event × Int :=
  let pre : List Event := [.promptLine "Enter database name: ",
    .promptLine "Enter username: ", .promptLine "Enter password: "]
  let isAdmin := isAdminOf username
  if senv.connectOk = false then
    (pre ++ [.diag ("Critical error: " ++ ("Error connecting to DB: " ++ senv.connectErr))], 0)
  else
    match checkResult "Error initializing stored procedures" senv.initOutcome with
    | some e => (pre ++ [.diag ("Critical error: " ++ e)], 0)
    | none =>
        (pre ++ [.out "Connection successful.",
          .promptLine "Enter table name for operations: "] ++
          loopRun isAdmin tableName steps, 0)

/-- The remote calls of a trace, in order. -/
def remoteCallsOf (evs : List Event) : List RemoteCall :=
  evs.filterMap fun e => match e with
    | .remote c _ => some c
    | _ => none

/-- The stderr diagnostics of a trace, in order. -/
def diagsOf (evs : List Event) : List String :=
  evs.filterMap fun e => match e with
    | .diag s => some s
    | _ => none

/-- `true` iff every menu-prompt event in the trace happened while the
notice flag was `false`. -/
def promptFlagsFalse (evs : List Event) : Bool :=
  evs.all fun e => match e with
    | .promptMenu b => !b
    | _ => true

/-- `true` iff every remote call in the trace happened while the notice
flag was `true`. -/
def remoteFlagsTrue (evs : List Event) : Bool :=
  evs.all fun e => match e with
    | .remote _ b => b
    | _ => true

/-- Example per-iteration operator inputs, for concrete evaluations. -/
def sampleFields : FieldInputs :=
  ⟨"newdb", "olddb", "Dune", "Herbert", "Ace", 1965, 1, "bob", "pw", "guest"⟩

/-- An environment in which every remote call succeeds (with no rows). -/
def envAllOk : Env := ⟨.execOk, .ok []⟩

/-- `true` iff the event is not the table-name prompt of `main`
(line 359): used to show the menu loop never re-prompts for the table. -/
def notTablePrompt (e : Event) : Bool :=
  !(e == Event.promptLine "Enter table name for operations: ")

/-! ## Helper lemmas -/

theorem menuStep_exitFlag (isAdmin : Bool) (tableName : String) (choice : Int)
    (f : FieldInputs) (env : Env) :
    (menuStep isAdmin tableName choice f env).exitFlag
      = (dispatch isAdmin tableName choice f env).2.2 := by
  unfold menuStep
  cases h : (dispatch isAdmin tableName choice f env).2.1 <;> simp [h]

/-- `chooseAction` for a restricted session, branch by branch: only 8
(search), 9 (view all) and 10 (exit) select an action; everything else is
the final `else`. -/
theorem chooseAction_false (c : Int) :
    chooseAction false c =
      if c = 8 then .search else if c = 9 then .viewAll
      else if c = 10 then .exitLoop else .invalid := by
  unfold chooseAction
  simp only [Bool.false_eq_true, and_false, if_false, not_false_iff, and_true, or_false,
    false_or, eq_self_iff_true, not_true, and_self]

/-- `chooseAction` for a privileged session, branch by branch. -/
theorem chooseAction_true (c : Int) :
    chooseAction true c =
      if c = 1 then .createDb else if c = 2 then .dropDb else if c = 3 then .createTbl
      else if c = 4 then .clearTbl else if c = 5 then .addBk else if c = 6 then .updateBk
      else if c = 7 then .deleteBk else if c = 8 then .search else if c = 9 then .viewAll
      else if c = 10 then .createUser else if c = 11 then .exitLoop else .invalid := by
  unfold chooseAction
  simp only [eq_self_iff_true, and_true, not_true, and_false, false_or, or_false, if_false]

theorem runAction_exitFlag (tableName : String) (f : FieldInputs) (env : Env) (a : MenuAction) :
    (runAction tableName f env a).2.2 = true ↔ a = .exitLoop := by
  rcases env with ⟨aenv, penv⟩
  cases a <;> cases aenv <;> cases penv <;>
    simp [runAction, createDatabaseRun, dropDatabaseRun, primaryRun,
      searchBookByTitleRun, checkResult]

/-- The nine fixed SQL command texts the client can send from the dispatcher
(choices 8 and 9 share the search text); each is a string literal in the
source, independent of all operator input. -/
def fixedSqlList : List String :=
  ["CALL sp_create_database($1)", "CALL sp_drop_database($1)", "CALL sp_create_table($1)",
   "CALL sp_clear_table($1)", "CALL sp_add_book($1, $2, $3, $4, $5)",
   "SELECT * FROM sp_search_book_by_title($1, $2)",
   "CALL sp_update_book($1, $2, $3, $4, $5, $6)", "CALL sp_delete_book_by_title($1, $2)",
   "CALL sp_create_db_user($1, $2, $3)"]

/-- The command texts of the table-scoped operations — those whose first
positional parameter is the session's table name. -/
def tableScopedSqlList : List String :=
  ["CALL sp_create_table($1)", "CALL sp_clear_table($1)",
   "CALL sp_add_book($1, $2, $3, $4, $5)", "SELECT * FROM sp_search_book_by_title($1, $2)",
   "CALL sp_update_book($1, $2, $3, $4, $5, $6)", "CALL sp_delete_book_by_title($1, $2)"]

/-- A remote call is well formed for a session with table `tableName` when
its SQL text is one of the nine fixed literals and, if it is a table-scoped
operation, its first parameter is exactly `tableName`. -/
def callWellFormed (tableName : String) (rc : RemoteCall) : Bool :=
  fixedSqlList.contains rc.sql &&
    (!(tableScopedSqlList.contains rc.sql) || rc.params.head? == some tableName)

theorem remoteCallsOf_append (a b : List Event) :
    remoteCallsOf (a ++ b) = remoteCallsOf a ++ remoteCallsOf b :=
  List.filterMap_append a b _

theorem diagsOf_append (a b : List Event) :
    diagsOf (a ++ b) = diagsOf a ++ diagsOf b :=
  List.filterMap_append a b _

theorem promptFlagsFalse_append (a b : List Event) :
    promptFlagsFalse (a ++ b) = (promptFlagsFalse a && promptFlagsFalse b) :=
  List.all_append

theorem remoteFlagsTrue_append (a b : List Event) :
    remoteFlagsTrue (a ++ b) = (remoteFlagsTrue a && remoteFlagsTrue b) :=
  List.all_append

/-- Every event `printBooks` emits is a stdout line. -/
theorem printBooks_out_only (books : List Book) (e : Event) (he : e ∈ printBooks books) :
    ∃ s, e = .out s := by
  unfold printBooks at he
  split at he
  · simp at he
    exact ⟨_, he⟩
  · simp only [List.mem_map] at he
    obtain ⟨b, _, hb⟩ := he
    exact ⟨_, hb.symm⟩

theorem remoteCallsOf_printBooks (books : List Book) :
    remoteCallsOf (printBooks books) = [] := by
  unfold remoteCallsOf
  rw [List.filterMap_eq_nil_iff]
  intro e he
  obtain ⟨s, rfl⟩ := printBooks_out_only books e he
  rfl

theorem diagsOf_printBooks (books : List Book) :
    diagsOf (printBooks books) = [] := by
  unfold diagsOf
  rw [List.filterMap_eq_nil_iff]
  intro e he
  obtain ⟨s, rfl⟩ := printBooks_out_only books e he
  rfl

theorem promptFlagsFalse_printBooks (books : List Book) :
    promptFlagsFalse (printBooks books) = true := by
  unfold promptFlagsFalse
  rw [List.all_eq_true]
  intro e he
  obtain ⟨s, rfl⟩ := printBooks_out_only books e he
  rfl

theorem remoteFlagsTrue_printBooks (books : List Book) :
    remoteFlagsTrue (printBooks books) = true := by
  unfold remoteFlagsTrue
  rw [List.all_eq_true]
  intro e he
  obtain ⟨s, rfl⟩ := printBooks_out_only books e he
  rfl

theorem remoteCallsOf_nil : remoteCallsOf [] = [] := rfl

theorem remoteCallsOf_cons_remote (c : RemoteCall) (b : Bool) (es : List Event) :
    remoteCallsOf (.remote c b :: es) = c :: remoteCallsOf es := rfl

theorem remoteCallsOf_cons_out (s : String) (es : List Event) :
    remoteCallsOf (.out s :: es) = remoteCallsOf es := rfl

theorem remoteCallsOf_cons_diag (s : String) (es : List Event) :
    remoteCallsOf (.diag s :: es) = remoteCallsOf es := rfl

theorem remoteCallsOf_cons_promptLine (s : String) (es : List Event) :
    remoteCallsOf (.promptLine s :: es) = remoteCallsOf es := rfl

theorem remoteCallsOf_cons_promptMenu (b : Bool) (es : List Event) :
    remoteCallsOf (.promptMenu b :: es) = remoteCallsOf es := rfl

theorem remoteCallsOf_cons_connOpen (s : String) (es : List Event) :
    remoteCallsOf (.connOpen s :: es) = remoteCallsOf es := rfl

theorem remoteCallsOf_cons_connClose (s : String) (es : List Event) :
    remoteCallsOf (.connClose s :: es) = remoteCallsOf es := rfl

/-- Sweep over every action and environment: each dispatched action issues
only well-formed remote calls — fixed SQL literal, and the session table
name as first parameter for table-scoped operations. -/
theorem runAction_calls (tableName : String) (f : FieldInputs) (env : Env) (a : MenuAction) :
    (remoteCallsOf (runAction tableName f env a).1).all (callWellFormed tableName) = true := by
  rcases env with ⟨aenv, penv⟩
  cases a <;> cases aenv <;> cases penv <;>
    simp [runAction, createDatabaseRun, dropDatabaseRun, primaryRun, searchBookByTitleRun,
      checkResult, remoteCallsOf_append, remoteCallsOf_printBooks, remoteCallsOf_nil,
      remoteCallsOf_cons_remote, remoteCallsOf_cons_out, remoteCallsOf_cons_diag,
      remoteCallsOf_cons_promptLine, remoteCallsOf_cons_promptMenu, remoteCallsOf_cons_connOpen,
      remoteCallsOf_cons_connClose,
      callWellFormed, fixedSqlList, tableScopedSqlList, createDatabaseCall, dropDatabaseCall,
      createTableCall, clearTableCall, addBookCall, searchBookByTitleCall, updateBookCall,
      deleteBookByTitleCall, createDBUserCall]

/-- Sweep over every action and environment: the events of a dispatched
action contain no menu prompt, and every remote call it makes happens while
the notice flag is `true`. -/
theorem runAction_flags (tableName : String) (f : FieldInputs) (env : Env) (a : MenuAction) :
    promptFlagsFalse (runAction tableName f env a).1 = true ∧
      remoteFlagsTrue (runAction tableName f env a).1 = true := by
  rcases env with ⟨aenv, penv⟩
  cases a <;> cases aenv <;> cases penv <;>
    (simp [runAction, createDatabaseRun, dropDatabaseRun, primaryRun, searchBookByTitleRun,
      checkResult, promptFlagsFalse_append, remoteFlagsTrue_append, promptFlagsFalse_printBooks,
      remoteFlagsTrue_printBooks, promptFlagsFalse, remoteFlagsTrue]
     try constructor <;> (intro x hx; obtain ⟨s, rfl⟩ := printBooks_out_only _ x hx; rfl))

theorem remoteCallsOf_menuHeader (isAdmin : Bool) :
    remoteCallsOf (menuHeader isAdmin) = [] := by
  cases isAdmin <;> rfl

theorem diagsOf_menuHeader (isAdmin : Bool) :
    diagsOf (menuHeader isAdmin) = [] := by
  cases isAdmin <;> rfl

theorem promptFlagsFalse_menuHeader (isAdmin : Bool) :
    promptFlagsFalse (menuHeader isAdmin) = true := by
  cases isAdmin <;> rfl

theorem remoteFlagsTrue_menuHeader (isAdmin : Bool) :
    remoteFlagsTrue (menuHeader isAdmin) = true := by
  cases isAdmin <;> rfl

/-- The events of one loop iteration: menu text, a menu prompt with the
flag `false`, the dispatched branch, and — exactly when the branch threw —
one stderr line. -/
theorem menuStep_events (isAdmin : Bool) (tableName : String) (choice : Int)
    (f : FieldInputs) (env : Env) :
    (menuStep isAdmin tableName choice f env).events =
      menuHeader isAdmin ++ [.promptMenu false] ++ (dispatch isAdmin tableName choice f env).1 ++
        (match (dispatch isAdmin tableName choice f env).2.1 with
          | none => []
          | some e => [.diag ("Error: " ++ e)]) := by
  unfold menuStep
  cases h : (dispatch isAdmin tableName choice f env).2.1 <;> simp [h]

theorem menuStep_flagAfter (isAdmin : Bool) (tableName : String) (choice : Int)
    (f : FieldInputs) (env : Env) :
    (menuStep isAdmin tableName choice f env).flagAfter = false := by
  unfold menuStep
  cases h : (dispatch isAdmin tableName choice f env).2.1 <;> simp [h]

theorem promptFlagsFalse_promptMenuFalse :
    promptFlagsFalse [.promptMenu false] = true := rfl

theorem promptFlagsFalse_diagSingleton (s : String) :
    promptFlagsFalse [.diag s] = true := rfl

theorem remoteFlagsTrue_promptMenu (b : Bool) :
    remoteFlagsTrue [.promptMenu b] = true := rfl

theorem remoteFlagsTrue_diagSingleton (s : String) :
    remoteFlagsTrue [.diag s] = true := rfl

/-- Every remote call of one loop iteration is well formed. -/
theorem menuStep_calls (isAdmin : Bool) (tableName : String) (choice : Int)
    (f : FieldInputs) (env : Env) :
    (remoteCallsOf (menuStep isAdmin tableName choice f env).events).all
      (callWellFormed tableName) = true := by
  rw [menuStep_events]
  unfold dispatch
  have h3 := runAction_calls tableName f env (chooseAction isAdmin choice)
  rw [List.all_eq_true] at h3
  cases h : (runAction tableName f env (chooseAction isAdmin choice)).2.1 <;>
    · rw [List.all_eq_true]
      intro x hx
      rw [remoteCallsOf_append, remoteCallsOf_append, remoteCallsOf_append] at hx
      simp only [remoteCallsOf_menuHeader, remoteCallsOf_cons_promptMenu,
        remoteCallsOf_cons_diag, remoteCallsOf_nil, List.append_nil, List.nil_append,
        List.mem_append, List.not_mem_nil, or_false, false_or] at hx
      exact h3 x hx

/-- In one loop iteration the menu prompt happens with the flag `false` and
every remote call with the flag `true`. -/
theorem menuStep_flags (isAdmin : Bool) (tableName : String) (choice : Int)
    (f : FieldInputs) (env : Env) :
    promptFlagsFalse (menuStep isAdmin tableName choice f env).events = true ∧
      remoteFlagsTrue (menuStep isAdmin tableName choice f env).events = true := by
  rw [menuStep_events]
  unfold dispatch
  have hr := runAction_flags tableName f env (chooseAction isAdmin choice)
  cases h : (runAction tableName f env (chooseAction isAdmin choice)).2.1 <;>
    · constructor
      · rw [promptFlagsFalse_append, promptFlagsFalse_append, promptFlagsFalse_append,
          promptFlagsFalse_menuHeader, promptFlagsFalse_promptMenuFalse, hr.1]
        rfl
      · rw [remoteFlagsTrue_append, remoteFlagsTrue_append, remoteFlagsTrue_append,
          remoteFlagsTrue_menuHeader, remoteFlagsTrue_promptMenu, hr.2]
        rfl

/-- Every remote call of a whole session loop is well formed. -/
theorem loopRun_calls (isAdmin : Bool) (tableName : String)
    (steps : List (Int × FieldInputs × Env)) :
    (remoteCallsOf (loopRun isAdmin tableName steps)).all (callWellFormed tableName) = true := by
  induction steps with
  | nil => rfl
  | cons s rest ih =>
      rcases s with ⟨choice, f, env⟩
      unfold loopRun
      split
      · exact menuStep_calls isAdmin tableName choice f env
      · rw [remoteCallsOf_append, List.all_append]
        exact by rw [menuStep_calls isAdmin tableName choice f env, ih]; rfl

/-- Over a whole session loop, every menu prompt happens with the flag
`false` and every remote call with the flag `true`. -/
theorem loopRun_flags (isAdmin : Bool) (tableName : String)
    (steps : List (Int × FieldInputs × Env)) :
    promptFlagsFalse (loopRun isAdmin tableName steps) = true ∧
      remoteFlagsTrue (loopRun isAdmin tableName steps) = true := by
  induction steps with
  | nil => exact ⟨rfl, rfl⟩
  | cons s rest ih =>
      rcases s with ⟨choice, f, env⟩
      unfold loopRun
      split
      · exact menuStep_flags isAdmin tableName choice f env
      · rw [promptFlagsFalse_append, remoteFlagsTrue_append,
          (menuStep_flags isAdmin tableName choice f env).1,
          (menuStep_flags isAdmin tableName choice f env).2, ih.1, ih.2]
        exact ⟨rfl, rfl⟩

theorem chooseAction_false_eq_exit (c : Int) :
    chooseAction false c = .exitLoop ↔ c = 10 := by
  rw [chooseAction_false]
  repeat' split
  all_goals simp_all

theorem chooseAction_true_eq_exit (c : Int) :
    chooseAction true c = .exitLoop ↔ c = 11 := by
  rw [chooseAction_true]
  repeat' split
  all_goals simp_all

/-- A (choice, role) pair that falls to the final `else` produces exactly
the menu, the prompt and the local diagnostic line — nothing else. -/
theorem menuStep_of_invalid (isAdmin : Bool) (tableName : String) (choice : Int)
    (f : FieldInputs) (env : Env) (h : chooseAction isAdmin choice = .invalid) :
    menuStep isAdmin tableName choice f env =
      ⟨menuHeader isAdmin ++ [.promptMenu false] ++ [.out invalidChoiceMsg], false, false⟩ := by
  unfold menuStep dispatch
  rw [h]
  rfl

/-- A (choice, role) pair that selects the exit branch produces only the
menu and the prompt, and sets the exit flag. -/
theorem menuStep_of_exit (isAdmin : Bool) (tableName : String) (choice : Int)
    (f : FieldInputs) (env : Env) (h : chooseAction isAdmin choice = .exitLoop) :
    menuStep isAdmin tableName choice f env =
      ⟨menuHeader isAdmin ++ [.promptMenu false] ++ [], true, false⟩ := by
  unfold menuStep dispatch
  rw [h]
  rfl

theorem decodeRows_eq_map (rows : List Row) : decodeRows rows = rows.map decodeRow := by
  induction rows with
  | nil => rfl
  | cons r rs ih => rw [decodeRows, List.map_cons, ih]

/-! ## Claim theorems -/

/-- C7: the exit choice is 11 for a privileged session and 10 for a
restricted session; for every session, entering that number — and only that
number — sets the exit flag, and the exit branch performs no remote call. -/
theorem c7_exit_numbering (tableName : String) (choice : Int) (f : FieldInputs) (env : Env) :
    ((menuStep true tableName choice f env).exitFlag = true ↔ choice = 11) ∧
    ((menuStep false tableName choice f env).exitFlag = true ↔ choice = 10) ∧
    remoteCallsOf (menuStep true tableName 11 f env).events = [] ∧
    remoteCallsOf (menuStep false tableName 10 f env).events = [] := by
  refine ⟨?_, ?_, ?_, ?_⟩
  · rw [menuStep_exitFlag]
    unfold dispatch
    rw [runAction_exitFlag]
    exact chooseAction_true_eq_exit choice
  · rw [menuStep_exitFlag]
    unfold dispatch
    rw [runAction_exitFlag]
    exact chooseAction_false_eq_exit choice
  · rw [menuStep_of_exit true tableName 11 f env (by decide)]
    rfl
  · rw [menuStep_of_exit false tableName 10 f env (by decide)]
    rfl

/-- C9: `main` returns exit code 0 on every path, including after a caught
top-level error. -/
theorem c9_exit_code_zero (dbName username password tableName : String) (senv : SetupEnv)
    (steps : List (Int × FieldInputs × Env)) :
    (mainRun dbName username password tableName senv steps).2 = 0 := by
  unfold mainRun
  repeat' split
  all_goals rfl

/-- C2: a session is privileged iff the entered username is exactly the
literal `"admin"` (case-sensitive, no other privileged names); the
classification is computed once per run — the whole run depends on the
username only through that one classification. -/
theorem c2_role_classification :
    (∀ username : String, isAdminOf username = true ↔ username = "admin") ∧
    (∀ (u₁ u₂ dbName password tableName : String) (senv : SetupEnv)
      (steps : List (Int × FieldInputs × Env)), isAdminOf u₁ = isAdminOf u₂ →
      mainRun dbName u₁ password tableName senv steps =
        mainRun dbName u₂ password tableName senv steps) := by
  constructor
  · intro u
    unfold isAdminOf
    exact beq_iff_eq
  · intro u₁ u₂ dbName password tableName senv steps h
    unfold mainRun
    rw [h]

theorem c2_role_classification_witness :
    (isAdminOf "Admin" = true ↔ "Admin" = "admin") ∧
    mainRun "library" "alice" "pw" "books" ⟨true, "", .ok []⟩ [] =
      mainRun "library" "bob" "pw" "books" ⟨true, "", .ok []⟩ [] :=
  ⟨c2_role_classification.1 "Admin",
   c2_role_classification.2 "alice" "bob" "library" "pw" "books" ⟨true, "", .ok []⟩ []
     (by decide)⟩

/-- Restricted sessions: choices 1–7 and out-of-range choices fall to the
final `else`. -/
theorem chooseAction_false_invalid (c : Int)
    (h : (1 ≤ c ∧ c ≤ 7) ∨ c < 1 ∨ 10 < c) :
    chooseAction false c = .invalid := by
  rw [chooseAction_false]
  split_ifs with h8 h9 h10
  · omega
  · omega
  · omega
  · rfl

set_option maxHeartbeats 1600000 in
/-- Privileged sessions: out-of-range choices fall to the final `else`. -/
theorem chooseAction_true_invalid (c : Int) (h : c < 1 ∨ 11 < c) :
    chooseAction true c = .invalid := by
  rw [chooseAction_true]
  repeat' split
  all_goals simp_all
  all_goals omega

/-- C1 counterexample: in a restricted session the number of the "create
user" choice (10) is not rejected with a diagnostic — it is the exit choice:
entering it sets the exit flag and produces neither a diagnostic line nor
the local invalid-choice message (and no remote call). -/
theorem c1_counterexample :
    remoteCallsOf (menuStep false "books" 10 sampleFields envAllOk).events = [] ∧
    (menuStep false "books" 10 sampleFields envAllOk).exitFlag = true ∧
    diagsOf (menuStep false "books" 10 sampleFields envAllOk).events = [] ∧
    ((menuStep false "books" 10 sampleFields envAllOk).events.all
      (fun e => !(e == .out invalidChoiceMsg))) = true := by
  refine ⟨rfl, rfl, rfl, ?_⟩
  decide

/-- C1 (amended): in a restricted session, choices 1–7 and every
out-of-range choice are rejected locally with the invalid-choice message and
no remote call; choice 10 performs no remote call but is the exit choice
rather than a rejected one; in a privileged session every out-of-range
choice is likewise rejected locally with the message and no remote call. -/
theorem c1_role_gating (tableName : String) (choice : Int) (f : FieldInputs) (env : Env) :
    ((1 ≤ choice ∧ choice ≤ 7) ∨ choice < 1 ∨ 10 < choice →
      remoteCallsOf (menuStep false tableName choice f env).events = [] ∧
      Event.out invalidChoiceMsg ∈ (menuStep false tableName choice f env).events ∧
      (menuStep false tableName choice f env).exitFlag = false) ∧
    (choice < 1 ∨ 11 < choice →
      remoteCallsOf (menuStep true tableName choice f env).events = [] ∧
      Event.out invalidChoiceMsg ∈ (menuStep true tableName choice f env).events ∧
      (menuStep true tableName choice f env).exitFlag = false) ∧
    (choice = 10 →
      remoteCallsOf (menuStep false tableName choice f env).events = [] ∧
      (menuStep false tableName choice f env).exitFlag = true ∧
      diagsOf (menuStep false tableName choice f env).events = []) := by
  refine ⟨?_, ?_, ?_⟩
  · intro h
    rw [menuStep_of_invalid false tableName choice f env
      (chooseAction_false_invalid choice h)]
    refine ⟨rfl, ?_, rfl⟩
    decide
  · intro h
    rw [menuStep_of_invalid true tableName choice f env
      (chooseAction_true_invalid choice h)]
    refine ⟨rfl, ?_, rfl⟩
    decide
  · intro h
    subst h
    rw [menuStep_of_exit false tableName 10 f env (by decide)]
    exact ⟨rfl, rfl, rfl⟩

theorem c1_role_gating_witness :
    (remoteCallsOf (menuStep false "books" 3 sampleFields envAllOk).events = [] ∧
      Event.out invalidChoiceMsg ∈ (menuStep false "books" 3 sampleFields envAllOk).events ∧
      (menuStep false "books" 3 sampleFields envAllOk).exitFlag = false) ∧
    (remoteCallsOf (menuStep true "books" 12 sampleFields envAllOk).events = [] ∧
      Event.out invalidChoiceMsg ∈ (menuStep true "books" 12 sampleFields envAllOk).events ∧
      (menuStep true "books" 12 sampleFields envAllOk).exitFlag = false) ∧
    (remoteCallsOf (menuStep false "books" 10 sampleFields envAllOk).events = [] ∧
      (menuStep false "books" 10 sampleFields envAllOk).exitFlag = true ∧
      diagsOf (menuStep false "books" 10 sampleFields envAllOk).events = []) :=
  ⟨(c1_role_gating "books" 3 sampleFields envAllOk).1 (by omega),
   (c1_role_gating "books" 12 sampleFields envAllOk).2.1 (by omega),
   (c1_role_gating "books" 10 sampleFields envAllOk).2.2 rfl⟩

/-- C4: server notices are echoed only during the extent of a dispatched
action — over any session loop every menu prompt happens while the notice
flag is `false`, every remote call happens while it is `true`, and every
iteration (successful or failed) leaves the flag `false`. -/
theorem c4_notice_flag_scope (isAdmin : Bool) (tableName : String)
    (steps : List (Int × FieldInputs × Env)) (choice : Int) (f : FieldInputs) (env : Env) :
    promptFlagsFalse (loopRun isAdmin tableName steps) = true ∧
    remoteFlagsTrue (loopRun isAdmin tableName steps) = true ∧
    (menuStep isAdmin tableName choice f env).flagAfter = false :=
  ⟨(loopRun_flags isAdmin tableName steps).1, (loopRun_flags isAdmin tableName steps).2,
   menuStep_flagAfter isAdmin tableName choice f env⟩

/-- C6: each of the dispatcher's call builders produces a fixed SQL literal
with the user-supplied values only as positional text parameters (integers
via `to_string`), and over any session loop every remote call's SQL text is
one of the nine fixed literals. -/
theorem c6_fixed_sql_parameterized :
    (∀ s, createDatabaseCall s = ⟨.adminTemp, "CALL sp_create_database($1)", [s]⟩) ∧
    (∀ s, dropDatabaseCall s = ⟨.adminTemp, "CALL sp_drop_database($1)", [s]⟩) ∧
    (∀ t, createTableCall t = ⟨.primary, "CALL sp_create_table($1)", [t]⟩) ∧
    (∀ t, clearTableCall t = ⟨.primary, "CALL sp_clear_table($1)", [t]⟩) ∧
    (∀ t ti au pu (y : Int), addBookCall t ti au pu y =
      ⟨.primary, "CALL sp_add_book($1, $2, $3, $4, $5)", [t, ti, au, pu, toString y]⟩) ∧
    (∀ t q, searchBookByTitleCall t q =
      ⟨.primary, "SELECT * FROM sp_search_book_by_title($1, $2)", [t, q]⟩) ∧
    (∀ t (i : Int) ti au pu (y : Int), updateBookCall t i ti au pu y =
      ⟨.primary, "CALL sp_update_book($1, $2, $3, $4, $5, $6)",
        [t, toString i, ti, au, pu, toString y]⟩) ∧
    (∀ t ti, deleteBookByTitleCall t ti =
      ⟨.primary, "CALL sp_delete_book_by_title($1, $2)", [t, ti]⟩) ∧
    (∀ u p m, createDBUserCall u p m =
      ⟨.primary, "CALL sp_create_db_user($1, $2, $3)", [u, p, m]⟩) ∧
    (∀ (isAdmin : Bool) (tableName : String) (steps : List (Int × FieldInputs × Env)),
      (remoteCallsOf (loopRun isAdmin tableName steps)).all
        (fun rc => fixedSqlList.contains rc.sql) = true) := by
  refine ⟨fun s => rfl, fun s => rfl, fun t => rfl, fun t => rfl, fun t ti au pu y => rfl,
    fun t q => rfl, fun t i ti au pu y => rfl, fun t ti => rfl, fun u p m => rfl, ?_⟩
  intro isAdmin tableName steps
  rw [List.all_eq_true]
  intro rc hrc
  have h := loopRun_calls isAdmin tableName steps
  rw [List.all_eq_true] at h
  have h2 := h rc hrc
  unfold callWellFormed at h2
  rw [Bool.and_eq_true] at h2
  exact h2.1

/-- C8: choice 9 issues exactly the same remote call as choice 8 with the
empty filter, and a successful search result is decoded row by row, in row
order, one `Book` per returned row. -/
theorem c8_view_all_decode (isAdmin : Bool) (tableName : String) (f : FieldInputs) (env : Env)
    (rows : List Row) :
    remoteCallsOf (menuStep isAdmin tableName 9 f env).events =
      [searchBookByTitleCall tableName ""] ∧
    remoteCallsOf (menuStep isAdmin tableName 8
      ⟨f.newDb, f.dropDb, "", f.author, f.publisher, f.year, f.id,
        f.newUsername, f.newUserPassword, f.newUserMode⟩ env).events =
      [searchBookByTitleCall tableName ""] ∧
    (searchBookByTitleRun tableName "" (.ok rows)).2 = Except.ok (decodeRows rows) ∧
    decodeRows rows = rows.map decodeRow ∧
    (decodeRows rows).length = rows.length ∧
    (∀ i : Nat, (decodeRows rows)[i]? = rows[i]?.map decodeRow) := by
  refine ⟨?_, ?_, rfl, decodeRows_eq_map rows, ?_, ?_⟩
  · rcases env with ⟨aenv, penv⟩
    cases penv <;>
      · rw [menuStep_events]
        unfold dispatch
        rw [show chooseAction isAdmin 9 = MenuAction.viewAll from rfl]
        simp [runAction, searchBookByTitleRun, remoteCallsOf_append, remoteCallsOf_menuHeader,
          remoteCallsOf_cons_promptMenu, remoteCallsOf_cons_remote, remoteCallsOf_cons_promptLine,
          remoteCallsOf_cons_diag, remoteCallsOf_printBooks, remoteCallsOf_nil]
  · rcases env with ⟨aenv, penv⟩
    cases penv <;>
      · rw [menuStep_events]
        unfold dispatch
        rw [show chooseAction isAdmin 8 = MenuAction.search from rfl]
        simp [runAction, searchBookByTitleRun, remoteCallsOf_append, remoteCallsOf_menuHeader,
          remoteCallsOf_cons_promptMenu, remoteCallsOf_cons_remote, remoteCallsOf_cons_promptLine,
          remoteCallsOf_cons_diag, remoteCallsOf_printBooks, remoteCallsOf_nil]
  · rw [decodeRows_eq_map, List.length_map]
  · intro i
    rw [decodeRows_eq_map, List.getElem?_map]

theorem notTablePrompt_printBooks (books : List Book) :
    (printBooks books).all notTablePrompt = true := by
  rw [List.all_eq_true]
  intro e he
  obtain ⟨s, rfl⟩ := printBooks_out_only books e he
  rfl

theorem notTablePrompt_menuHeader (isAdmin : Bool) :
    (menuHeader isAdmin).all notTablePrompt = true := by
  cases isAdmin <;> rfl

/-- No dispatched action ever prompts for the table name again. -/
theorem runAction_notTablePrompt (tableName : String) (f : FieldInputs) (env : Env)
    (a : MenuAction) :
    (runAction tableName f env a).1.all notTablePrompt = true := by
  rcases env with ⟨aenv, penv⟩
  cases a <;> cases aenv <;> cases penv <;>
    (simp [runAction, createDatabaseRun, dropDatabaseRun, primaryRun, searchBookByTitleRun,
      checkResult, notTablePrompt, List.all_append, notTablePrompt_printBooks]
     try (intro x hx; obtain ⟨s, rfl⟩ := printBooks_out_only _ x hx; rfl))

/-- No event of a loop iteration is the table-name prompt. -/
theorem menuStep_notTablePrompt (isAdmin : Bool) (tableName : String) (choice : Int)
    (f : FieldInputs) (env : Env) :
    (menuStep isAdmin tableName choice f env).events.all notTablePrompt = true := by
  rw [menuStep_events]
  unfold dispatch
  have h3 := runAction_notTablePrompt tableName f env (chooseAction isAdmin choice)
  rw [List.all_eq_true] at h3
  cases h : (runAction tableName f env (chooseAction isAdmin choice)).2.1 with
  | none =>
      rw [List.all_eq_true]
      intro x hx
      simp only [List.mem_append, List.mem_singleton, List.not_mem_nil, or_false] at hx
      rcases hx with (hx | hx) | hx
      · exact (List.all_eq_true.mp (notTablePrompt_menuHeader isAdmin)) x hx
      · subst hx
        rfl
      · exact h3 x hx
  | some e =>
      rw [List.all_eq_true]
      intro x hx
      simp only [List.mem_append, List.mem_singleton, List.not_mem_nil, or_false] at hx
      rcases hx with ((hx | hx) | hx) | hx
      · exact (List.all_eq_true.mp (notTablePrompt_menuHeader isAdmin)) x hx
      · subst hx
        rfl
      · exact h3 x hx
      · subst hx
        rfl

/-- No event of a whole session loop is the table-name prompt. -/
theorem loopRun_notTablePrompt (isAdmin : Bool) (tableName : String)
    (steps : List (Int × FieldInputs × Env)) :
    (loopRun isAdmin tableName steps).all notTablePrompt = true := by
  induction steps with
  | nil => rfl
  | cons s rest ih =>
      rcases s with ⟨choice, f, env⟩
      unfold loopRun
      split
      · exact menuStep_notTablePrompt isAdmin tableName choice f env
      · rw [List.all_append, menuStep_notTablePrompt isAdmin tableName choice f env, ih]
        rfl

/-- C10: the table name is prompted for exactly once, right after the
connection and procedure provisioning succeed; the menu loop never
re-prompts for it; and every table-scoped remote call of the session
carries that same table name as its first parameter. -/
theorem c10_table_name_fixed :
    (∀ (dbName username password tableName connectErr : String) (rows : List Row)
      (steps : List (Int × FieldInputs × Env)),
      (mainRun dbName username password tableName ⟨true, connectErr, .ok rows⟩ steps).1 =
        [.promptLine "Enter database name: ", .promptLine "Enter username: ",
         .promptLine "Enter password: ", .out "Connection successful.",
         .promptLine "Enter table name for operations: "] ++
          loopRun (isAdminOf username) tableName steps) ∧
    (∀ (isAdmin : Bool) (tableName : String) (steps : List (Int × FieldInputs × Env)),
      (loopRun isAdmin tableName steps).all notTablePrompt = true) ∧
    (∀ (isAdmin : Bool) (tableName : String) (steps : List (Int × FieldInputs × Env)),
      (remoteCallsOf (loopRun isAdmin tableName steps)).all
        (fun rc => !(tableScopedSqlList.contains rc.sql) ||
          rc.params.head? == some tableName) = true) := by
  refine ⟨?_, loopRun_notTablePrompt, ?_⟩
  · intro dbName username password tableName connectErr rows steps
    rfl
  · intro isAdmin tableName steps
    rw [List.all_eq_true]
    intro rc hrc
    have h := loopRun_calls isAdmin tableName steps
    rw [List.all_eq_true] at h
    have h2 := h rc hrc
    unfold callWellFormed at h2
    rw [Bool.and_eq_true] at h2
    exact h2.2

/-- C3 counterexample: when the search call (choice 8) fails, the code at
lines 265–268 throws the fixed text `"Error searching for book"` without
reading `PQerrorMessage` — the reported diagnostic does not carry the
server's error message (here `"boom"`), so the failure is not reported as
the server's message prefixed with the static description. -/
theorem c3_counterexample :
    diagsOf (menuStep true "books" 8 sampleFields ⟨.execOk, .fail "boom"⟩).events =
      ["Error: Error searching for book"] ∧
    "Error: Error searching for book" ≠
      "Error: " ++ ("Error searching for book" ++ ": " ++ "boom") := by
  refine ⟨rfl, ?_⟩
  decide

/-- C3 (amended): every failing menu action is reported exactly once to the
diagnostic stream, never retried (exactly one remote call is made), and the
loop continues; for every action except search/view-all the report is the
server's message prefixed with the action's static description, while a
failing search or view-all (choices 8 and 9) reports only the fixed text
`"Error searching for book"`, without the server's message. -/
theorem c3_error_reporting (tableName : String) (f : FieldInputs) (serverMsg : String) :
    (diagsOf (menuStep true tableName 1 f ⟨.execFail serverMsg, .fail serverMsg⟩).events =
        ["Error: " ++ ("Error creating database" ++ ": " ++ serverMsg)] ∧
      (remoteCallsOf (menuStep true tableName 1 f
        ⟨.execFail serverMsg, .fail serverMsg⟩).events).length = 1 ∧
      (menuStep true tableName 1 f ⟨.execFail serverMsg, .fail serverMsg⟩).exitFlag = false) ∧
    (diagsOf (menuStep true tableName 2 f ⟨.execFail serverMsg, .fail serverMsg⟩).events =
        ["Error: " ++ ("Error dropping database" ++ ": " ++ serverMsg)] ∧
      (remoteCallsOf (menuStep true tableName 2 f
        ⟨.execFail serverMsg, .fail serverMsg⟩).events).length = 1 ∧
      (menuStep true tableName 2 f ⟨.execFail serverMsg, .fail serverMsg⟩).exitFlag = false) ∧
    (diagsOf (menuStep true tableName 3 f ⟨.execFail serverMsg, .fail serverMsg⟩).events =
        ["Error: " ++ ("Error creating table" ++ ": " ++ serverMsg)] ∧
      (remoteCallsOf (menuStep true tableName 3 f
        ⟨.execFail serverMsg, .fail serverMsg⟩).events).length = 1 ∧
      (menuStep true tableName 3 f ⟨.execFail serverMsg, .fail serverMsg⟩).exitFlag = false) ∧
    (diagsOf (menuStep true tableName 4 f ⟨.execFail serverMsg, .fail serverMsg⟩).events =
        ["Error: " ++ ("Error clearing table" ++ ": " ++ serverMsg)] ∧
      (remoteCallsOf (menuStep true tableName 4 f
        ⟨.execFail serverMsg, .fail serverMsg⟩).events).length = 1 ∧
      (menuStep true tableName 4 f ⟨.execFail serverMsg, .fail serverMsg⟩).exitFlag = false) ∧
    (diagsOf (menuStep true tableName 5 f ⟨.execFail serverMsg, .fail serverMsg⟩).events =
        ["Error: " ++ ("Error adding book" ++ ": " ++ serverMsg)] ∧
      (remoteCallsOf (menuStep true tableName 5 f
        ⟨.execFail serverMsg, .fail serverMsg⟩).events).length = 1 ∧
      (menuStep true tableName 5 f ⟨.execFail serverMsg, .fail serverMsg⟩).exitFlag = false) ∧
    (diagsOf (menuStep true tableName 6 f ⟨.execFail serverMsg, .fail serverMsg⟩).events =
        ["Error: " ++ ("Error updating book" ++ ": " ++ serverMsg)] ∧
      (remoteCallsOf (menuStep true tableName 6 f
        ⟨.execFail serverMsg, .fail serverMsg⟩).events).length = 1 ∧
      (menuStep true tableName 6 f ⟨.execFail serverMsg, .fail serverMsg⟩).exitFlag = false) ∧
    (diagsOf (menuStep true tableName 7 f ⟨.execFail serverMsg, .fail serverMsg⟩).events =
        ["Error: " ++ ("Error deleting book" ++ ": " ++ serverMsg)] ∧
      (remoteCallsOf (menuStep true tableName 7 f
        ⟨.execFail serverMsg, .fail serverMsg⟩).events).length = 1 ∧
      (menuStep true tableName 7 f ⟨.execFail serverMsg, .fail serverMsg⟩).exitFlag = false) ∧
    (diagsOf (menuStep true tableName 8 f ⟨.execFail serverMsg, .fail serverMsg⟩).events =
        ["Error: " ++ "Error searching for book"] ∧
      (remoteCallsOf (menuStep true tableName 8 f
        ⟨.execFail serverMsg, .fail serverMsg⟩).events).length = 1 ∧
      (menuStep true tableName 8 f ⟨.execFail serverMsg, .fail serverMsg⟩).exitFlag = false) ∧
    (diagsOf (menuStep true tableName 9 f ⟨.execFail serverMsg, .fail serverMsg⟩).events =
        ["Error: " ++ "Error searching for book"] ∧
      (remoteCallsOf (menuStep true tableName 9 f
        ⟨.execFail serverMsg, .fail serverMsg⟩).events).length = 1 ∧
      (menuStep true tableName 9 f ⟨.execFail serverMsg, .fail serverMsg⟩).exitFlag = false) ∧
    (diagsOf (menuStep true tableName 10 f ⟨.execFail serverMsg, .fail serverMsg⟩).events =
        ["Error: " ++ ("Error creating DB user" ++ ": " ++ serverMsg)] ∧
      (remoteCallsOf (menuStep true tableName 10 f
        ⟨.execFail serverMsg, .fail serverMsg⟩).events).length = 1 ∧
      (menuStep true tableName 10 f ⟨.execFail serverMsg, .fail serverMsg⟩).exitFlag = false) :=
  ⟨⟨rfl, rfl, rfl⟩, ⟨rfl, rfl, rfl⟩, ⟨rfl, rfl, rfl⟩, ⟨rfl, rfl, rfl⟩, ⟨rfl, rfl, rfl⟩,
   ⟨rfl, rfl, rfl⟩, ⟨rfl, rfl, rfl⟩, ⟨rfl, rfl, rfl⟩, ⟨rfl, rfl, rfl⟩, ⟨rfl, rfl, rfl⟩⟩

/-- C5: create-database and drop-database use a separate short-lived
connection to the fixed database `"postgres"`; it is closed on success and
when the connection attempt itself fails, and a failure on it aborts only
the single operation (the loop does not exit). But when the `CALL` on the
administrative connection fails, `checkResult` throws before
`PQfinish(connTemp)` (lines 216 and 231 are never reached) and the
connection is leaked — contrary to the claim's "closed again before the
operation returns in both the success and the failure case". -/
theorem c5_admin_connection (newDb dropDb connErr : String) :
    ((createDatabaseRun newDb (.connFail connErr)).1 =
      [.connOpen "postgres", .connClose "postgres"]) ∧
    ((createDatabaseRun newDb .execOk).1 =
      [.connOpen "postgres", .remote (createDatabaseCall newDb) true, .connClose "postgres"]) ∧
    ((dropDatabaseRun dropDb .execOk).1 =
      [.connOpen "postgres", .remote (dropDatabaseCall dropDb) true, .connClose "postgres"]) ∧
    Event.connOpen "postgres" ∈ (createDatabaseRun "newdb" (.execFail "db exists")).1 ∧
    Event.connClose "postgres" ∉ (createDatabaseRun "newdb" (.execFail "db exists")).1 ∧
    Event.connClose "postgres" ∉ (dropDatabaseRun "olddb" (.execFail "db busy")).1 ∧
    (∀ (tableName serverMsg : String) (f : FieldInputs),
      (menuStep true tableName 1 f ⟨.execFail serverMsg, .ok []⟩).exitFlag = false ∧
      (menuStep true tableName 2 f ⟨.execFail serverMsg, .ok []⟩).exitFlag = false) := by
  refine ⟨rfl, rfl, rfl, ?_, ?_, ?_, fun tableName serverMsg f => ⟨rfl, rfl⟩⟩
  · decide
  · decide
  · decide
